import Mathlib

/-!
Verification of the flood-hazard lookup engine (`api/flood.py`).

The geometric core of the program is embedded generically over a
`LinearOrderedField` (instantiated at `ℚ` for executable checks and at `ℝ`
for the projection, which uses `log` and `tan`).  Python runtime errors
(`KeyError`, `IndexError`, `NameError`) are modelled with `Except`:
a dictionary field that may be absent becomes an `Option`, and reading an
absent field produces the corresponding error value.
-/

namespace Flood

/-- Python runtime errors that the translated code can raise. -/
inductive PyErr where
  | keyError
  | indexError
  | nameError
deriving DecidableEq

/-- The `bounds` record of a raw feature: `{minx, miny, maxx, maxy}`. -/
structure BBox (α : Type) where
  minx : α
  miny : α
  maxx : α
  maxy : α
deriving DecidableEq

/-- The `geometry` record of a raw feature: `{type, coordinates}`. -/
structure Geometry (α : Type) where
  typ : String
  coordinates : List (List (α × α))
deriving DecidableEq

/-- A raw feature record.  Each field of the Python dict may be absent,
modelled by `Option`; reading an absent field raises `KeyError`. -/
structure RawFeature (α : Type) where
  bounds : Option (BBox α)
  geometry : Option (Geometry α)
  hazard : Option String
deriving DecidableEq

/-- Decidable equality for `Except`, so concrete runs of the translated
code can be checked with `decide`. -/
instance instDecEqExcept {ε τ : Type} [DecidableEq ε] [DecidableEq τ] :
    DecidableEq (Except ε τ) := fun a b =>
  match a, b with
  | .error e, .error f =>
    if h : e = f then .isTrue (by rw [h])
    else .isFalse (fun hh => h (by injection hh))
  | .ok u, .ok v =>
    if h : u = v then .isTrue (by rw [h])
    else .isFalse (fun hh => h (by injection hh))
  | .error _, .ok _ => .isFalse (fun hh => Except.noConfusion hh)
  | .ok _, .error _ => .isFalse (fun hh => Except.noConfusion hh)

variable {α : Type} [LinearOrderedField α]

/-- The conditional assignment `if y1 != y2: x_intersection = ...` of
line 114-115: the `x_intersection` local keeps its previous state (possibly
still unassigned) when the guard fails. -/
def pipAssign (y x1 y1 x2 y2 : α) (xint : Option α) : Option α :=
  if y1 ≠ y2 then some ((y - y1) * (x2 - x1) / (y2 - y1) + x1) else xint

/-- The loop body of `point_in_polygon`, threading the previous vertex
`(x1, y1)`, the `x_intersection` local (absent until first assigned,
reading it unassigned raises `NameError`) and the `inside` flag.
Mirrors lines 106-120 of `api/flood.py`. -/
def pipGo (x y : α) : List (α × α) → α → α → Option α → Bool → Except PyErr Bool
  | [], _, _, _, inside => .ok inside
  | (x2, y2) :: rest, x1, y1, xint, inside =>
    if min y1 y2 < y ∧ y ≤ max y1 y2 then
      if x ≤ max x1 x2 then
        if x1 = x2 then
          pipGo x y rest x2 y2 (pipAssign y x1 y1 x2 y2 xint) (!inside)
        else
          match pipAssign y x1 y1 x2 y2 xint with
          | none => .error .nameError
          | some v =>
            if x ≤ v then pipGo x y rest x2 y2 (some v) (!inside)
            else pipGo x y rest x2 y2 (some v) inside
      else pipGo x y rest x2 y2 xint inside
    else pipGo x y rest x2 y2 xint inside

/-- `point_in_polygon(x, y, polygon)` from `api/flood.py`.  `polygon[-1]`
on an empty list raises `IndexError`. -/
def point_in_polygon (x y : α) (polygon : List (α × α)) : Except PyErr Bool :=
  match polygon.getLast? with
  | none => .error .indexError
  | some (x1, y1) => pipGo x y polygon x1 y1 none false

/-- The crossing condition exactly as the specification words it: the edge
is a candidate when `min(y1,y2) < y <= max(y1,y2)` and `x <= max(x1,x2)`,
and it toggles `inside` when the edge is vertical (`x1 == x2`) or
`x <= xIntersect` with `xIntersect = (y - y1)*(x2 - x1)/(y2 - y1) + x1`. -/
abbrev edgeCross (x y x1 y1 x2 y2 : α) : Prop :=
  (min y1 y2 < y ∧ y ≤ max y1 y2) ∧ x ≤ max x1 x2 ∧
    (x1 = x2 ∨ x ≤ (y - y1) * (x2 - x1) / (y2 - y1) + x1)

/-- Loop of the specification-worded classifier: toggle `inside` on each
edge satisfying `edgeCross`. -/
def specGo (x y : α) : List (α × α) → α → α → Bool → Bool
  | [], _, _, inside => inside
  | (x2, y2) :: rest, x1, y1, inside =>
    specGo x y rest x2 y2 (if edgeCross x y x1 y1 x2 y2 then !inside else inside)

/-- `contains(point, ring)` as the specification describes it: start the
previous-vertex pointer at the last vertex and fold `specGo` over the ring. -/
def contains_spec (x y : α) (polygon : List (α × α)) : Bool :=
  match polygon.getLast? with
  | none => false
  | some (x1, y1) => specGo x y polygon x1 y1 false

/-- The bounding-box test of lines 143-144:
`bounds['minx'] <= x <= bounds['maxx'] and bounds['miny'] <= y <= bounds['maxy']`. -/
abbrev inBox (b : BBox α) (x y : α) : Prop :=
  b.minx ≤ x ∧ x ≤ b.maxx ∧ b.miny ≤ y ∧ y ≤ b.maxy

/-- The ring loop of lines 151-153: test each ring in stored order and
return the feature's `hazard` field on the first containing ring (reading a
missing `hazard` raises `KeyError`); an error raised by
`point_in_polygon` propagates. -/
def checkRings (x y : α) (hazard : Option String) :
    List (List (α × α)) → Except PyErr (Option String)
  | [] => .ok none
  | r :: rs =>
    match point_in_polygon x y r with
    | .error e => .error e
    | .ok true =>
      match hazard with
      | none => .error .keyError
      | some h => .ok (some h)
    | .ok false => checkRings x y hazard rs

/-- The per-feature body of the `find_flood_hazard` loop (lines 139-153):
read `bounds` (KeyError if absent), reject on the bounding box, then read
`geometry` (KeyError if absent), recognize only type `"Polygon"`, and test
the rings.  Returns `none` when the feature is passed over. -/
def scanFeature (x y : α) (f : RawFeature α) : Except PyErr (Option String) :=
  match f.bounds with
  | none => .error .keyError
  | some b =>
    if inBox b x y then
      match f.geometry with
      | none => .error .keyError
      | some g =>
        if g.typ = "Polygon" then checkRings x y f.hazard g.coordinates
        else .ok none
    else .ok none

/-- The feature loop of `find_flood_hazard` on an already planar point:
scan the features in dataset order and return the first hazard found
(line 156 returns `None` when the loop falls through). -/
def find_hazard_scan (x y : α) : List (RawFeature α) → Except PyErr (Option String)
  | [] => .ok none
  | f :: rest =>
    match scanFeature x y f with
    | .error e => .error e
    | .ok (some h) => .ok (some h)
    | .ok none => find_hazard_scan x y rest

/-- The square ring of spec property P3. -/
def squareRing : List (ℚ × ℚ) := [(0, 0), (10, 0), (10, 10), (0, 10)]

/-- The bounding box of `squareRing`. -/
def unitBox : BBox ℚ := ⟨0, 0, 10, 10⟩

/-- A bounding box far away from `squareRing`. -/
def farBox : BBox ℚ := ⟨20, 20, 30, 30⟩

/-- A malformed feature: the `bounds` field is missing. -/
def featureNoBounds : RawFeature ℚ := ⟨none, some ⟨"Polygon", [squareRing]⟩, some "HIGH"⟩

/-- A malformed feature: the `geometry` field is missing. -/
def featureNoGeom : RawFeature ℚ := ⟨some unitBox, none, some "HIGH"⟩

/-- A malformed feature: the geometry holds one empty ring. -/
def featureEmptyRing : RawFeature ℚ := ⟨some unitBox, some ⟨"Polygon", [[]]⟩, some "HIGH"⟩

/-- A malformed feature: the `hazard` field is missing. -/
def featureNoHazard : RawFeature ℚ := ⟨some unitBox, some ⟨"Polygon", [squareRing]⟩, none⟩

/-- A trap feature: its ring contains `(5, 5)` but its bounding box
excludes it, so only a skipped bounding-box test would let it match. -/
def featureTrap : RawFeature ℚ := ⟨some farBox, some ⟨"Polygon", [squareRing]⟩, some "TRAP"⟩

/-- A feature with unsupported geometry type `"Point"`, co-located with
`featureHigh`. -/
def featurePoint : RawFeature ℚ := ⟨some unitBox, some ⟨"Point", [[(5, 5)]]⟩, some "POINT"⟩

/-- A well-formed feature over the square with hazard `"HIGH"`. -/
def featureHigh : RawFeature ℚ := ⟨some unitBox, some ⟨"Polygon", [squareRing]⟩, some "HIGH"⟩

/-- A second well-formed feature over the same square with hazard `"LOW"`. -/
def featureLow : RawFeature ℚ := ⟨some unitBox, some ⟨"Polygon", [squareRing]⟩, some "LOW"⟩

/-- A malformed feature whose bounding box excludes the query point used in
the witnesses: both `geometry` and `hazard` are missing. -/
def featureBroken : RawFeature ℚ := ⟨some farBox, none, none⟩

/-- `math.radians(d)`: degrees to radians. -/
noncomputable def radians (d : ℝ) : ℝ := d * Real.pi / 180

/-- `lat_lon_to_web_mercator(lat, lon)` of lines 72-89:
`x = R * radians(lon)`, `y = R * log(tan(pi/4 + radians(lat)/2))`, with
`R = 6378137.0` the WGS84 equatorial radius. -/
noncomputable def lat_lon_to_web_mercator (lat lon : ℝ) : ℝ × ℝ :=
  (6378137.0 * radians lon,
   6378137.0 * Real.log (Real.tan (Real.pi / 4 + radians lat / 2)))

/-- `find_flood_hazard(lat, lon, flood_data)` of lines 125-156: project the
query point to Web Mercator, then run the feature scan. -/
noncomputable def find_flood_hazard (lat lon : ℝ) (flood_data : List (RawFeature ℝ)) :
    Except PyErr (Option String) :=
  find_hazard_scan (lat_lon_to_web_mercator lat lon).1
    (lat_lon_to_web_mercator lat lon).2 flood_data

/-- `load_flood_data` of lines 28-44: a fetch/parse failure (`none`) is
swallowed and yields the empty list, otherwise the parsed dataset is used. -/
def load_flood_data (fetched : Option (List (RawFeature ℝ))) : List (RawFeature ℝ) :=
  match fetched with
  | none => []
  | some d => d

/-- The message carried by a Python exception, as interpolated into the
handler's `f"Internal server error: {str(e)}"`. -/
def pyErrStr : PyErr → String
  | .keyError => "KeyError"
  | .indexError => "IndexError"
  | .nameError => "NameError"

/-- The handler's possible outcomes for a hazard query. -/
inductive Response where
  | success (flood_hazard : String) (in_flood_zone : Bool)
  | error (code : Nat) (message : String)
deriving DecidableEq

/-- The dataset-handling tail of `handler.handle_request` (lines 209-239):
an empty (or failed) dataset is answered with a distinct 500
"Failed to load flood hazard data"; an exception escaping
`find_flood_hazard` is caught and answered with a 500; otherwise the
response carries `hazard if hazard else 'NONE'` and `hazard is not None`. -/
noncomputable def respond (flood_data : List (RawFeature ℝ)) (lat lon : ℝ) : Response :=
  if flood_data.isEmpty then .error 500 "Failed to load flood hazard data"
  else
    match find_flood_hazard lat lon flood_data with
    | .error e => .error 500 ("Internal server error: " ++ pyErrStr e)
    | .ok h => .success (h.getD "NONE") h.isSome

/-- A feature (over `ℝ`) whose bounding box excludes the origin. -/
def featureFarR : RawFeature ℝ :=
  ⟨some ⟨20, 20, 30, 30⟩, some ⟨"Polygon", [[(0, 0), (10, 0), (10, 10), (0, 10)]]⟩,
    some "HIGH"⟩


/-- A candidate edge is never horizontal: `min(y1,y2) < y <= max(y1,y2)`
forces `y1 ≠ y2`. -/
theorem candidate_ne {y y1 y2 : α} (h1 : min y1 y2 < y) (h2 : y ≤ max y1 y2) :
    y1 ≠ y2 := by
  intro he
  subst he
  rw [min_self] at h1
  rw [max_self] at h2
  exact absurd (lt_of_lt_of_le h1 h2) (lt_irrefl _)

/-- The translated loop never raises and computes exactly the
specification-worded fold, whatever the incoming `x_intersection` state. -/
theorem pipGo_eq (x y : α) (l : List (α × α)) :
    ∀ (x1 y1 : α) (xint : Option α) (inside : Bool),
      pipGo x y l x1 y1 xint inside = .ok (specGo x y l x1 y1 inside) := by
  induction l with
  | nil => intro x1 y1 xint inside; rfl
  | cons p rest ih =>
    intro x1 y1 xint inside
    obtain ⟨x2, y2⟩ := p
    by_cases hc : min y1 y2 < y ∧ y ≤ max y1 y2
    · have hne : y1 ≠ y2 := candidate_ne hc.1 hc.2
      by_cases hx : x ≤ max x1 x2
      · by_cases hv : x1 = x2
        · simp only [pipGo, specGo, pipAssign, if_pos hc, if_pos hx, if_pos hne, if_pos hv,
            if_pos (show edgeCross x y x1 y1 x2 y2 from ⟨hc, hx, Or.inl hv⟩), ih]
        · by_cases hxi : x ≤ (y - y1) * (x2 - x1) / (y2 - y1) + x1
          · simp only [pipGo, specGo, pipAssign, if_pos hc, if_pos hx, if_pos hne, if_neg hv,
              if_pos (show edgeCross x y x1 y1 x2 y2 from ⟨hc, hx, Or.inr hxi⟩), if_pos hxi, ih]
          · simp only [pipGo, specGo, pipAssign, if_pos hc, if_pos hx, if_pos hne, if_neg hv,
              if_neg hxi, ih]
            rw [if_neg]
            intro hcross
            rcases hcross.2.2 with h | h
            · exact hv h
            · exact hxi h
      · simp only [pipGo, specGo, if_pos hc, if_neg hx, ih]
        rw [if_neg]
        intro hcross
        exact hx hcross.2.1
    · simp only [pipGo, specGo, if_neg hc, ih]
      rw [if_neg]
      intro hcross
      exact hc hcross.1

/-- A feature whose bounding box rejects the point is passed over without
touching its `geometry` or `hazard` fields. -/
theorem scanFeature_bbox_none (x y : α) (f : RawFeature α) (b : BBox α)
    (hb : f.bounds = some b) (hout : ¬ inBox b x y) :
    scanFeature x y f = .ok none := by
  simp [scanFeature, hb, hout]

/-- A feature passed over with `ok none` steps the scan to the rest. -/
theorem scan_cons_skip {x y : α} {f : RawFeature α} {rest : List (RawFeature α)}
    (h : scanFeature x y f = .ok none) :
    find_hazard_scan x y (f :: rest) = find_hazard_scan x y rest := by
  simp [find_hazard_scan, h]

/-- A feature that reports a hazard ends the scan with that hazard. -/
theorem scan_cons_hit {x y : α} {f : RawFeature α} {rest : List (RawFeature α)}
    {h : String} (hf : scanFeature x y f = .ok (some h)) :
    find_hazard_scan x y (f :: rest) = .ok (some h) := by
  simp [find_hazard_scan, hf]

/-- A feature that raises propagates the error out of the scan. -/
theorem scan_cons_err {x y : α} {f : RawFeature α} {rest : List (RawFeature α)}
    {e : PyErr} (hf : scanFeature x y f = .error e) :
    find_hazard_scan x y (f :: rest) = .error e := by
  simp [find_hazard_scan, hf]

/-- A prefix of passed-over features does not change the scan's answer. -/
theorem scan_append_skip (x y : α) (l : List (RawFeature α)) :
    ∀ (pre : List (RawFeature α)),
      (∀ g ∈ pre, scanFeature x y g = .ok none) →
      find_hazard_scan x y (pre ++ l) = find_hazard_scan x y l := by
  intro pre
  induction pre with
  | nil => intro _; rfl
  | cons g tl ih =>
    intro h
    rw [List.cons_append, scan_cons_skip (h g (by simp))]
    exact ih (fun g' hg' => h g' (by simp [hg']))

/-- Rings are tested in stored order: if the rings before `r` all report
`false` and `r` reports `true`, the stored hazard is returned. -/
theorem checkRings_hit (x y : α) (hz : String) :
    ∀ (rs1 : List (List (α × α))) (r : List (α × α)) (rs2 : List (List (α × α))),
      (∀ r' ∈ rs1, point_in_polygon x y r' = .ok false) →
      point_in_polygon x y r = .ok true →
      checkRings x y (some hz) (rs1 ++ r :: rs2) = .ok (some hz) := by
  intro rs1
  induction rs1 with
  | nil =>
    intro r rs2 _ hhit
    simp [checkRings, hhit]
  | cons a tl ih =>
    intro r rs2 hmiss hhit
    have ha : point_in_polygon x y a = .ok false := hmiss a (by simp)
    rw [List.cons_append]
    simp only [checkRings, ha]
    exact ih r rs2 (fun r' hr' => hmiss r' (by simp [hr'])) hhit

/-- A feature whose bounding box admits the point, whose geometry is a
`"Polygon"`, and whose ring test returns a hazard, reports that hazard. -/
theorem scanFeature_hit (x y : α) (f : RawFeature α) (b : BBox α) (g : Geometry α)
    (hz : String) (hb : f.bounds = some b) (hin : inBox b x y)
    (hg : f.geometry = some g) (ht : g.typ = "Polygon")
    (hcr : checkRings x y f.hazard g.coordinates = .ok (some hz)) :
    scanFeature x y f = .ok (some hz) := by
  simp [scanFeature, hb, hin, hg, ht, hcr]

/-- C1: `point_in_polygon` implements exactly the even-odd ray-casting
algorithm the specification words: previous-vertex pointer started at the
last vertex, candidate test `min(y1,y2) < y <= max(y1,y2)` with
`x <= max(x1,x2)`, toggling on `x1 == x2` or `x <= xIntersect`; and on the
square ring `[(0,0),(10,0),(10,10),(0,10)]` it classifies `(5,5)` inside
and `(15,5)` outside. -/
theorem point_in_polygon_matches_spec :
    (∀ (β : Type) [_inst : LinearOrderedField β] (x y : β) (polygon : List (β × β)),
        polygon ≠ [] → point_in_polygon x y polygon = .ok (contains_spec x y polygon))
    ∧ point_in_polygon (5 : ℚ) 5 squareRing = .ok true
    ∧ point_in_polygon (15 : ℚ) 5 squareRing = .ok false := by
  refine ⟨?_, by decide, by decide⟩
  intro β _ x y polygon hpoly
  have hs : polygon.getLast?.isSome := List.getLast?_isSome.mpr hpoly
  rcases ho : polygon.getLast? with _ | ⟨x1, y1⟩
  · rw [ho] at hs
    simp at hs
  · simp only [point_in_polygon, contains_spec, ho]
    exact pipGo_eq x y polygon x1 y1 none false

/-- C1 witness: the equivalence applied to the square ring at `(5,5)`. -/
theorem point_in_polygon_matches_spec_w :
    point_in_polygon (5 : ℚ) 5 squareRing = .ok (contains_spec (5 : ℚ) 5 squareRing) :=
  point_in_polygon_matches_spec.1 ℚ 5 5 squareRing (by decide)

/-- C9: the classifier divides only on non-horizontal edges — the
candidate test rules horizontal edges out — so for every point and every
ring it never reads `x_intersection` unassigned (no `NameError`), and on a
nonempty ring it always returns a boolean. -/
theorem classifier_division_safe :
    ∀ (β : Type) [_inst : LinearOrderedField β] (x y : β) (polygon : List (β × β)),
      (∀ y1 y2 : β, min y1 y2 < y → y ≤ max y1 y2 → y1 ≠ y2)
      ∧ point_in_polygon x y polygon ≠ .error .nameError
      ∧ (polygon ≠ [] → ∃ b, point_in_polygon x y polygon = .ok b) := by
  intro β _ x y polygon
  refine ⟨fun y1 y2 h1 h2 => candidate_ne h1 h2, ?_, ?_⟩
  · rcases ho : polygon.getLast? with _ | ⟨x1, y1⟩
    · simp only [point_in_polygon, ho]
      intro h
      injection h with h'
      exact PyErr.noConfusion h'
    · simp only [point_in_polygon, ho, pipGo_eq]
      intro h
      exact Except.noConfusion h
  · intro hpoly
    have hs : polygon.getLast?.isSome := List.getLast?_isSome.mpr hpoly
    rcases ho : polygon.getLast? with _ | ⟨x1, y1⟩
    · rw [ho] at hs
      simp at hs
    · refine ⟨specGo x y polygon x1 y1 false, ?_⟩
      simp only [point_in_polygon, ho, pipGo_eq]

/-- C9 witness: the safety theorem applied on the square ring at `(5,5)`,
instantiating the horizontal-edge exclusion at `y1 = 0`, `y2 = 10`. -/
theorem classifier_division_safe_w :
    point_in_polygon (5 : ℚ) 5 squareRing ≠ .error .nameError
    ∧ (0 : ℚ) ≠ 10
    ∧ ∃ b, point_in_polygon (5 : ℚ) 5 squareRing = .ok b :=
  ⟨(classifier_division_safe ℚ 5 5 squareRing).2.1,
   (classifier_division_safe ℚ 5 5 squareRing).1 0 10 (by decide) (by decide),
   (classifier_division_safe ℚ 5 5 squareRing).2.2 (by decide)⟩

/-- C2: the scan honors dataset order: when every feature before `f`
passes without matching and `f` matches — bounding box admits the point,
geometry is a `"Polygon"`, the rings before `r` report `false` and `r`
contains the point — the answer is `f`'s hazard, whatever comes after. -/
theorem first_match_order (β : Type) [inst : LinearOrderedField β]
    (pre post : List (RawFeature β)) (f : RawFeature β) (x y : β)
    (b : BBox β) (g : Geometry β) (rs1 : List (List (β × β)))
    (r : List (β × β)) (rs2 : List (List (β × β))) (hz : String)
    (hpre : ∀ feat ∈ pre, scanFeature x y feat = .ok none)
    (hb : f.bounds = some b) (hin : inBox b x y)
    (hg : f.geometry = some g) (ht : g.typ = "Polygon")
    (hr : g.coordinates = rs1 ++ r :: rs2)
    (hmiss : ∀ r' ∈ rs1, point_in_polygon x y r' = .ok false)
    (hhit : point_in_polygon x y r = .ok true)
    (hhz : f.hazard = some hz) :
    find_hazard_scan x y (pre ++ f :: post) = .ok (some hz) := by
  rw [scan_append_skip x y (f :: post) pre hpre]
  refine scan_cons_hit (scanFeature_hit x y f b g hz hb hin hg ht ?_)
  rw [hr, hhz]
  exact checkRings_hit x y hz rs1 r rs2 hmiss hhit

/-- C2 witness: `(5,5)` lies in both `featureHigh` and `featureLow`; after
the non-matching `featureTrap` the scan answers the first match, `"HIGH"`. -/
theorem first_match_order_w :
    find_hazard_scan (5 : ℚ) 5 [featureTrap, featureHigh, featureLow]
      = .ok (some "HIGH") :=
  first_match_order ℚ [featureTrap] [featureLow] featureHigh 5 5 unitBox
    ⟨"Polygon", [squareRing]⟩ [] squareRing [] "HIGH"
    (by decide) rfl (by decide) rfl rfl rfl (by decide) (by decide) rfl

/-- C3 counterexample: a feature lacking `bounds` makes the very first
query raise `KeyError` (line 140 reads `feature['bounds']`), so the
malformed feature is not excluded without raising. -/
theorem malformed_feature_aborts_query :
    find_hazard_scan (0 : ℚ) 0 [featureNoBounds] = .error .keyError
    ∧ find_hazard_scan (0 : ℚ) 0 [featureNoBounds] ≠ .ok none :=
  ⟨rfl, by decide⟩

/-- C3 amended: a malformed feature is passed over only when its bounding
box is present and rejects the point; otherwise the query raises as soon
as the malformation is reached — missing `bounds` raises `KeyError` on
every query, missing `geometry` raises `KeyError` once the bounding box
admits the point, an empty first ring raises `IndexError`, and a missing
`hazard` raises `KeyError` once a ring contains the point. -/
theorem malformed_feature_raises (β : Type) [inst : LinearOrderedField β]
    (f : RawFeature β) (rest : List (RawFeature β)) (x y : β) :
    (f.bounds = none → find_hazard_scan x y (f :: rest) = .error .keyError)
    ∧ (∀ b, f.bounds = some b → inBox b x y → f.geometry = none →
        find_hazard_scan x y (f :: rest) = .error .keyError)
    ∧ (∀ b g, f.bounds = some b → inBox b x y → f.geometry = some g →
        g.typ = "Polygon" → g.coordinates.head? = some [] →
        find_hazard_scan x y (f :: rest) = .error .indexError)
    ∧ (∀ b g r rs, f.bounds = some b → inBox b x y → f.geometry = some g →
        g.typ = "Polygon" → g.coordinates = r :: rs →
        point_in_polygon x y r = .ok true → f.hazard = none →
        find_hazard_scan x y (f :: rest) = .error .keyError)
    ∧ (∀ b, f.bounds = some b → ¬ inBox b x y →
        find_hazard_scan x y (f :: rest) = find_hazard_scan x y rest) := by
  refine ⟨?_, ?_, ?_, ?_, ?_⟩
  · intro hb
    exact scan_cons_err (by simp [scanFeature, hb])
  · intro b hb hin hg
    exact scan_cons_err (by simp [scanFeature, hb, hin, hg])
  · intro b g hb hin hg ht hhead
    rcases hco : g.coordinates with _ | ⟨r, tl⟩
    · rw [hco] at hhead
      simp at hhead
    · rw [hco] at hhead
      simp at hhead
      subst hhead
      refine scan_cons_err ?_
      simp [scanFeature, hb, hin, hg, ht, hco, checkRings, point_in_polygon]
  · intro b g r rs hb hin hg ht hco hhit hhz
    refine scan_cons_err ?_
    simp [scanFeature, hb, hin, hg, ht, hco, checkRings, hhit, hhz]
  · intro b hb hout
    exact scan_cons_skip (scanFeature_bbox_none x y f b hb hout)

/-- C3 witness: each malformed shape exercised concretely — missing
bounds, missing geometry, empty ring and missing hazard all raise, while a
malformed feature whose box rejects the point is skipped harmlessly. -/
theorem malformed_feature_raises_w :
    find_hazard_scan (5 : ℚ) 5 [featureNoBounds, featureHigh] = .error .keyError
    ∧ find_hazard_scan (5 : ℚ) 5 [featureNoGeom] = .error .keyError
    ∧ find_hazard_scan (5 : ℚ) 5 [featureEmptyRing] = .error .indexError
    ∧ find_hazard_scan (5 : ℚ) 5 [featureNoHazard] = .error .keyError
    ∧ find_hazard_scan (5 : ℚ) 5 [featureBroken, featureHigh]
        = find_hazard_scan (5 : ℚ) 5 [featureHigh] :=
  ⟨(malformed_feature_raises ℚ featureNoBounds [featureHigh] 5 5).1 rfl,
   (malformed_feature_raises ℚ featureNoGeom [] 5 5).2.1 unitBox rfl (by decide) rfl,
   (malformed_feature_raises ℚ featureEmptyRing [] 5 5).2.2.1 unitBox
     ⟨"Polygon", [[]]⟩ rfl (by decide) rfl rfl rfl,
   (malformed_feature_raises ℚ featureNoHazard [] 5 5).2.2.2.1 unitBox
     ⟨"Polygon", [squareRing]⟩ squareRing [] rfl (by decide) rfl rfl rfl (by decide) rfl,
   (malformed_feature_raises ℚ featureBroken [featureHigh] 5 5).2.2.2.2 farBox rfl
     (by decide)⟩

/-- C5: when the point is outside the bounding box of every feature, the
scan answers "no match" without ever running the classifier: the features'
geometry and hazard fields are arbitrary (even absent) and are never read. -/
theorem bbox_short_circuit (β : Type) [inst : LinearOrderedField β] (x y : β) :
    ∀ (features : List (RawFeature β)),
      (∀ f ∈ features, ∃ b, f.bounds = some b ∧ ¬ inBox b x y) →
      find_hazard_scan x y features = .ok none := by
  intro features
  induction features with
  | nil => intro _; rfl
  | cons f rest ih =>
    intro h
    obtain ⟨b, hb, hout⟩ := h f (by simp)
    rw [scan_cons_skip (scanFeature_bbox_none x y f b hb hout)]
    exact ih (fun g hg => h g (by simp [hg]))

/-- C5 witness: `featureTrap`'s ring does contain `(5,5)`, yet its tight
far-away bounding box makes the query answer "no match". -/
theorem bbox_short_circuit_w :
    find_hazard_scan (5 : ℚ) 5 [featureTrap] = .ok none
    ∧ point_in_polygon (5 : ℚ) 5 squareRing = .ok true := by
  constructor
  · apply bbox_short_circuit ℚ 5 5 [featureTrap]
    intro f hf
    rw [List.mem_singleton] at hf
    subst hf
    exact ⟨farBox, rfl, by decide⟩
  · decide

/-- C6: a feature whose declared geometry type is not `"Polygon"` is
accepted without error and excluded from every query result: the scan over
it reduces to the scan over the remaining features. -/
theorem unsupported_geometry_skip (β : Type) [inst : LinearOrderedField β]
    (f : RawFeature β) (b : BBox β) (g : Geometry β) (rest : List (RawFeature β))
    (x y : β) (hb : f.bounds = some b) (hg : f.geometry = some g)
    (ht : g.typ ≠ "Polygon") :
    find_hazard_scan x y (f :: rest) = find_hazard_scan x y rest := by
  refine scan_cons_skip ?_
  by_cases hin : inBox b x y
  · simp [scanFeature, hb, hin, hg, ht]
  · exact scanFeature_bbox_none x y f b hb hin

/-- C6 witness: the `"Point"` feature is skipped and the co-located
`"Polygon"` feature still matches with its hazard. -/
theorem unsupported_geometry_skip_w :
    find_hazard_scan (5 : ℚ) 5 [featurePoint, featureHigh] = .ok (some "HIGH") := by
  rw [unsupported_geometry_skip ℚ featurePoint unitBox ⟨"Point", [[(5, 5)]]⟩
    [featureHigh] 5 5 rfl rfl (by decide)]
  decide

/-- C10: a feature whose bounding box rejects the point is skipped after
reading only its bounds: its geometry and hazard fields — here arbitrary,
possibly absent — are never accessed, so they can neither match nor raise. -/
theorem bbox_fail_skips_feature (β : Type) [inst : LinearOrderedField β]
    (b : BBox β) (geo : Option (Geometry β)) (hz : Option String)
    (rest : List (RawFeature β)) (x y : β) (hout : ¬ inBox b x y) :
    find_hazard_scan x y (⟨some b, geo, hz⟩ :: rest) = find_hazard_scan x y rest :=
  scan_cons_skip (scanFeature_bbox_none x y ⟨some b, geo, hz⟩ b rfl hout)

/-- C10 witness: a feature with absent geometry and hazard but a rejecting
bounding box leaves the query unharmed. -/
theorem bbox_fail_skips_feature_w :
    find_hazard_scan (5 : ℚ) 5 [featureBroken] = .ok none :=
  (bbox_fail_skips_feature ℚ farBox none none [] 5 5 (by decide)).trans rfl

/-- The projection at the origin. -/
theorem mercator_zero : lat_lon_to_web_mercator 0 0 = (0, 0) := by
  simp [lat_lon_to_web_mercator, radians, Real.tan_pi_div_four, Real.log_one]

/-- The scan on `[featureFarR]` from the origin finds nothing. -/
theorem ffh_origin_far : find_flood_hazard 0 0 [featureFarR] = .ok none := by
  unfold find_flood_hazard
  rw [mercator_zero]
  norm_num [find_hazard_scan, scanFeature, inBox, featureFarR]

/-- C8: the projector meets the reference values: `project(0,0) = (0,0)`
and `project(0,90) = (R*pi/2, 0)` with `R = 6378137.0`, following
`x = R*radians(lon)`, `y = R*ln(tan(pi/4 + radians(lat)/2))`. -/
theorem projection_reference_values :
    lat_lon_to_web_mercator 0 0 = (0, 0)
    ∧ lat_lon_to_web_mercator 0 90 = (6378137.0 * Real.pi / 2, 0) := by
  refine ⟨mercator_zero, ?_⟩
  unfold lat_lon_to_web_mercator radians
  simp only [Prod.mk.injEq]
  constructor
  · ring
  · simp [Real.tan_pi_div_four]

/-- C7: an empty or unparseable dataset is answered with the distinguished
500 "Failed to load flood hazard data" response, which differs from every
success response — in particular from the "no match" answer
`success "NONE" false` that a nonempty dataset yields when nothing
contains the point. -/
theorem empty_dataset_unavailable :
    (∀ lat lon : ℝ, respond (load_flood_data none) lat lon
        = .error 500 "Failed to load flood hazard data")
    ∧ (∀ lat lon : ℝ, respond (load_flood_data (some [])) lat lon
        = .error 500 "Failed to load flood hazard data")
    ∧ (∀ (data : List (RawFeature ℝ)) (lat lon : ℝ), data ≠ [] →
        find_flood_hazard lat lon data = .ok none →
        respond data lat lon = .success "NONE" false)
    ∧ (∀ (c : Nat) (m h : String) (z : Bool),
        Response.error c m ≠ Response.success h z) := by
  refine ⟨fun lat lon => rfl, fun lat lon => rfl, ?_,
    fun c m h z hh => Response.noConfusion hh⟩
  intro data lat lon hne hq
  cases data with
  | nil => exact absurd rfl hne
  | cons f rest =>
    simp only [respond, List.isEmpty_cons, Bool.false_eq_true, if_false, hq]
    rfl

/-- C7 witness: the empty-load response and, on a one-feature dataset that
does not contain the origin, the distinct "no match" success response. -/
theorem empty_dataset_unavailable_w :
    respond [featureFarR] 0 0 = .success "NONE" false
    ∧ respond (load_flood_data none) 0 0
        = .error 500 "Failed to load flood hazard data" :=
  ⟨empty_dataset_unavailable.2.2.1 [featureFarR] 0 0 (by simp) ffh_origin_far,
   empty_dataset_unavailable.1 0 0⟩

end Flood
